import Mathlib

/-!
Shallow embedding of `src/ccxtbroker.py` (CCXTBroker): the order lifecycle
reconciliation engine, submission path, cancellation path and their state.

Python floats are modelled as `Int` (no claim is float-sensitive), Python
dict lookups as association-list lookups raising `Err.keyError` on absence,
and Python `list.remove` as `listRemove` raising `Err.consistencyError`
(Python `ValueError`) when the element is absent.  Exceptions are modelled
with `Except` / explicit error components; side effects performed before a
raise persist, exactly as in the Python.
-/

/-- One entry of a snapshot's `trades` list: `{id, datetime, amount, price}`. -/
structure Fill where
  id : String
  datetime : String
  amount : Int
  price : Int
deriving DecidableEq, Repr

/-- An element of `o_order.executed_fills` (a Python list).  The code only ever
appends fill-id strings (`fill['id']`), but the membership test
`fill not in o_order.executed_fills` compares the whole fill dict against the
entries; Python equality between a dict and a str is `False`, which the
derived equality reproduces (distinct constructors never compare equal). -/
inductive FillsEntry where
  | idStr (s : String)
  | fillDict (f : Fill)
deriving DecidableEq, Repr

/-- Local order status.  backtrader's non-terminal statuses (Created /
Submitted / Accepted / Partial) are collapsed into `submitted`; the claims
only distinguish non-terminal from the two terminal statuses.
`completed` is backtrader `Order.Completed` (spec: "closed"),
`canceled` is backtrader `Order.Canceled`. -/
inductive OStatus where
  | submitted
  | completed
  | canceled
deriving DecidableEq, Repr

/-- `True` exactly on the non-terminal statuses. -/
def OStatus.nonTerminal : OStatus → Bool
  | .submitted => true
  | .completed => false
  | .canceled => false

/-- The `CCXTOrder` object (constructor at `ccxtbroker.py` lines 40-49 plus the
`order.price = ...` assignment done right after construction).
`executed` records the applications of `o_order.execute(...)` (backtrader's
executed-fill bookkeeping, external to this repo) as the list of fills passed
to it, which is exactly the executed-fill state the claims speak about. -/
structure CCXTOrder where
  id : String
  dataname : String
  side : String
  ordtype_buy : Bool
  size : Int
  price : Option Int
  status : OStatus
  executed_fills : List FillsEntry
  executed : List Fill
deriving DecidableEq, Repr

/-- A fetched exchange order snapshot.  The always-used fields (`id`, `side`,
`amount`, `price`) are named; the status-bearing fields read through the
configurable mapping table live in the association list `fields`;
`trades` is `none` for both an absent key and an explicit `None`
(the code treats the two identically at line 166). -/
structure Snapshot where
  id : String
  side : String
  amount : Int
  price : Int
  fields : List (String × String)
  trades : Option (List Fill)
deriving DecidableEq, Repr

/-- Errors raised by the embedded Python operations. -/
inductive Err where
  | keyError (key : String)
  | consistencyError
  | gatewayError (msg : String)
deriving DecidableEq, Repr

/-- Python `snapshot[key]`: association lookup, `KeyError` when absent. -/
def snapGet (s : Snapshot) (k : String) : Except Err String :=
  match s.fields.lookup k with
  | some v => Except.ok v
  | none => Except.error (Err.keyError k)

/-- `self.mappings` flattened: `{closed_order: {key, value}, canceled_order:
{key, value}}` (lines 109-117). -/
structure Mappings where
  closed_key : String
  closed_value : String
  canceled_key : String
  canceled_value : String
deriving DecidableEq, Repr

/-- The default `mappings` class attribute. -/
def defaultMappings : Mappings :=
  { closed_key := "status", closed_value := "closed"
    canceled_key := "status", canceled_value := "canceled" }

/-- Python `list.remove(x)`: drops the first occurrence, raises `ValueError`
(modelled as `Err.consistencyError`, the spec's name for this condition)
when `x` is absent. -/
def listRemove (l : List String) (x : String) : Except Err (List String) :=
  if l.contains x then Except.ok (l.erase x) else Except.error Err.consistencyError

/-- A gateway call as recorded in the call trace. -/
inductive GCall where
  | fetchOrder (oid symbol : String)
  | cancelOrder (oid symbol : String)
  | createOrder (symbol : String)
  | createBatch
  | getBalance
deriving DecidableEq, Repr

/-- The broker's mutable engine state: the open-order registry
(`self.open_orders`, by order id), the notification queue (`self.notifs`, by
order id in enqueue order), the position-update events issued to the external
backtrader `Position.update(size, price)` (the Position arithmetic itself is
backtrader's, outside this repo), the trace of gateway calls issued, and the
log of caught-and-printed errors. -/
structure BrokerState where
  open_orders : List String
  notifs : List String
  posUpdates : List (String × Int × Option Int)
  gateway_calls : List GCall
  log : List String
deriving DecidableEq, Repr

/-- The log line printed by an `except` handler (lines 195-197, 317-319). -/
def errLine (e : Err) : String :=
  match e with
  | Err.keyError k => "ERROR KeyError " ++ k
  | Err.consistencyError => "ERROR ValueError list.remove"
  | Err.gatewayError m => "ERROR " ++ m

/-- Lines 167-174, one iteration: the fill is applied (`o_order.execute`) and
its id appended exactly when `fill not in o_order.executed_fills`; the
membership test compares the fill dict against the stored entries. -/
def applyOneFill (o : CCXTOrder) (fill : Fill) : CCXTOrder :=
  if o.executed_fills.contains (FillsEntry.fillDict fill) then o
  else { o with executed := o.executed ++ [fill]
                executed_fills := o.executed_fills ++ [FillsEntry.idStr fill.id] }

/-- Lines 167-174: the `for fill in ccxt_order['trades']` loop. -/
def applyFills (o : CCXTOrder) (trades : List Fill) : CCXTOrder :=
  trades.foldl applyOneFill o

/-- Line 166: the `'trades' in ccxt_order and ccxt_order['trades'] != None`
guard around the fill loop. -/
def applyTrades (o : CCXTOrder) (trades : Option (List Fill)) : CCXTOrder :=
  match trades with
  | some ts => applyFills o ts
  | none => o

/-- Line 181-182 and 188-189: `pos = self.getposition(o_order.data, clone=False);
pos.update(o_order.size, o_order.price)` — recorded as a position-update event
for the order's instrument (the Position arithmetic is backtrader's). -/
def posUpdateStep (o : CCXTOrder) (st : BrokerState) : CCXTOrder × BrokerState :=
  (o, { st with posUpdates := st.posUpdates ++ [(o.dataname, o.size, o.price)] })

/-- Line 183: `o_order.completed()` — backtrader sets `status = Completed`. -/
def completedStep (o : CCXTOrder) (st : BrokerState) : CCXTOrder × BrokerState :=
  ({ o with status := OStatus.completed }, st)

/-- Line 190 / 400: `o_order.cancel()` — backtrader sets `status = Canceled`. -/
def cancelStep (o : CCXTOrder) (st : BrokerState) : CCXTOrder × BrokerState :=
  ({ o with status := OStatus.canceled }, st)

/-- Lines 184 / 191 / 401, `self.notify(order)`: `self.notifs.put(order)`. -/
def notifyStep (o : CCXTOrder) (st : BrokerState) : CCXTOrder × BrokerState :=
  (o, { st with notifs := st.notifs ++ [o.id] })

/-- Lines 186 / 193 / 213-217: `self.get_balance()` refreshes cash/value from
the store; recorded as a gateway call. -/
def getBalanceStep (o : CCXTOrder) (st : BrokerState) : CCXTOrder × BrokerState :=
  (o, { st with gateway_calls := st.gateway_calls ++ [GCall.getBalance] })

/-- Lines 180-186, the closed-order branch of `_fetch_order_updates`:
position update, `completed()`, `notify`, `self.open_orders.remove(o_order)`
(which may raise), `self.get_balance()`.  The error component is `some e`
when the removal raised; state mutated before the raise persists. -/
def closed_transition (o : CCXTOrder) (st : BrokerState) :
    CCXTOrder × BrokerState × Option Err :=
  let (o, st) := posUpdateStep o st
  let (o, st) := completedStep o st
  let (o, st) := notifyStep o st
  match listRemove st.open_orders o.id with
  | Except.error e => (o, st, some e)
  | Except.ok rest =>
    let st := { st with open_orders := rest }
    let (o, st) := getBalanceStep o st
    (o, st, none)

/-- Lines 187-193, the canceled-order branch: identical to the closed branch
except that `o_order.cancel()` replaces `o_order.completed()`. -/
def canceled_transition (o : CCXTOrder) (st : BrokerState) :
    CCXTOrder × BrokerState × Option Err :=
  let (o, st) := posUpdateStep o st
  let (o, st) := cancelStep o st
  let (o, st) := notifyStep o st
  match listRemove st.open_orders o.id with
  | Except.error e => (o, st, some e)
  | Except.ok rest =>
    let st := { st with open_orders := rest }
    let (o, st) := getBalanceStep o st
    (o, st, none)

/-- The observable intermediate states of the closed-order branch, one per
primitive mutation, built from the same steps as `closed_transition`
(the branch stops early when the registry removal raises). -/
def closed_transition_trace (o : CCXTOrder) (st : BrokerState) :
    List (CCXTOrder × BrokerState) :=
  let p0 := (o, st)
  let p1 := posUpdateStep p0.1 p0.2
  let p2 := completedStep p1.1 p1.2
  let p3 := notifyStep p2.1 p2.2
  match listRemove p3.2.open_orders p3.1.id with
  | Except.error _ => [p0, p1, p2, p3]
  | Except.ok rest =>
    let p4 := (p3.1, { p3.2 with open_orders := rest })
    let p5 := getBalanceStep p4.1 p4.2
    [p0, p1, p2, p3, p4, p5]

/-- Lines 166-193, the body of the `try` in `_fetch_order_updates` after the
fetch: fill application, the closed-order check, then — the two `if`s are
independent, there is no `elif` — the canceled-order check.  A raised error
(`KeyError` from a mapping lookup, `ValueError` from a removal) aborts the
rest of the body; mutations already performed persist. -/
def reconcileSnapshot (m : Mappings) (snap : Snapshot) (o : CCXTOrder)
    (st : BrokerState) : CCXTOrder × BrokerState × Option Err :=
  let o := applyTrades o snap.trades
  match snapGet snap m.closed_key with
  | Except.error e => (o, st, some e)
  | Except.ok v =>
    let r1 := if v == m.closed_value then closed_transition o st else (o, st, none)
    match r1 with
    | (o, st, some e) => (o, st, some e)
    | (o, st, none) =>
      match snapGet snap m.canceled_key with
      | Except.error e => (o, st, some e)
      | Except.ok w =>
        if w == m.canceled_value then canceled_transition o st else (o, st, none)

/-- The exchange gateway (the external `CCXTStore`), as oracles: each call
either returns a value or raises. -/
structure CreateResp where
  id : String
  price : Int
deriving DecidableEq, Repr

/-- One element of the batch-creation response (`returned_orders`). -/
structure RetOrder where
  orderId : String
  symbol : String
  price : Int
deriving DecidableEq, Repr

/-- One element of `owner_data_list` from `create_batch_order`. -/
structure OwnerData where
  owner : String
  dataname : String
  symbol : String
deriving DecidableEq, Repr

/-- Parameter-bag values (`**kwargs` / CCXT params).  `sub` is a nested dict,
`noneVal` is Python `None`. -/
inductive PVal where
  | str (s : String)
  | num (n : Int)
  | noneVal
  | sub (d : List (String × PVal))

/-- The gateway call surface used by the broker. -/
structure Gateway where
  fetch_order : String → String → Except Err Snapshot
  cancel_order : String → String → Except Err Snapshot
  create_order : String → Option String → String → Int → Option Int →
    List (String × PVal) → Except Err CreateResp
  create_batch_order : List String → Except Err (List RetOrder × List OwnerData)

/-- Lines 151-199, `_fetch_order_updates(self, o_order)`: fetch the snapshot,
run the state machine; the whole body is wrapped in `try/except Exception`,
whose handler prints (logs) the error, so an error never escapes and the
function always returns the order. -/
def _fetch_order_updates (m : Mappings) (g : Gateway) (o : CCXTOrder)
    (st : BrokerState) : CCXTOrder × BrokerState :=
  let st := { st with gateway_calls := st.gateway_calls ++ [GCall.fetchOrder o.id o.dataname] }
  match g.fetch_order o.id o.dataname with
  | Except.error e => (o, { st with log := st.log ++ [errLine e] })
  | Except.ok snap =>
    match reconcileSnapshot m snap o st with
    | (o, st, some e) => (o, { st with log := st.log ++ [errLine e] })
    | (o, st, none) => (o, st)

/-- Line 205: `dt.datetime.now().second / 30 == 1`.  The module imports
`division` from `__future__`, so `/` is true division over the integers;
the comparison is exact rational arithmetic. -/
def fires (second : Nat) : Bool :=
  decide ((second : ℚ) / 30 = 1)

/-- Lines 204-211, one iteration of the polling loop `fetch_order_updates`:
the order ids for which a reconciliation task is launched this iteration
(one per element of `list(self.open_orders)` when the condition fires and
the open set is non-empty, else none). -/
def fetch_order_updates_tick (second : Nat) (open_orders : List String) :
    List String :=
  if fires second then
    if open_orders.length > 0 then open_orders else []
  else []

/-- backtrader execution-type codes (`bt.Order.ExecTypes` indices):
Market = 0, Close = 1, Limit = 2, Stop = 3, StopLimit = 4. -/
def execMarket : Nat := 0

/-- backtrader `Order.Limit`. -/
def execLimit : Nat := 2

/-- backtrader `Order.Stop`. -/
def execStop : Nat := 3

/-- backtrader `Order.StopLimit`. -/
def execStopLimit : Nat := 4

/-- The default `order_types` class attribute (lines 104-107). -/
def default_order_types : List (Nat × String) :=
  [(execMarket, "market"), (execLimit, "limit"), (execStop, "stop"),
   (execStopLimit, "stop limit")]

/-- Line 266: `self.order_types.get(execType) if execType else 'market'`.
`execType` is `None` or an int; Python truthiness makes both `None` and `0`
(= `Order.Market`) take the `'market'` alternative, while a truthy int goes
through `dict.get`, which yields `None` when the key is absent. -/
def orderTypeFor (order_types : List (Nat × String)) (execType : Option Nat) :
    Option String :=
  match execType with
  | none => some "market"
  | some e => if e ≠ 0 then order_types.lookup e else some "market"

/-- Python key lookup on a kwargs dict. -/
def kwLookup (params : List (String × PVal)) (k : String) : Option PVal :=
  match params with
  | [] => none
  | (k1, v) :: rest => if k1 = k then some v else kwLookup rest k

/-- Python `del kwargs[k]`: removes the key, `KeyError` when absent
(lines 348-349 / 356-357). -/
def delKey (params : List (String × PVal)) (k : String) :
    Except Err (List (String × PVal)) :=
  match kwLookup params k with
  | some _ => Except.ok (params.filter (fun p => p.1 ≠ k))
  | none => Except.error (Err.keyError k)

/-- Line 269: `params = params['params'] if 'params' in params else params`.
When present the value is the nested CCXT params dict; a non-dict value is
left unmodelled (no caller passes one). -/
def unwrapParams (params : List (String × PVal)) : List (String × PVal) :=
  match kwLookup params "params" with
  | some (PVal.sub d) => d
  | some _ => params
  | none => params

/-- Python dict assignment `params[k] = v`: replace if present, else append. -/
def setParam (params : List (String × PVal)) (k : String) (v : PVal) :
    List (String × PVal) :=
  match kwLookup params k with
  | some _ => params.map (fun p => if p.1 = k then (k, v) else p)
  | none => params ++ [(k, v)]

/-- The `CCXTOrder.__init__` constructor (lines 40-49) applied to the fetched
snapshot: `ordtype` from `ccxt_order['side']`, `size` from
`ccxt_order['amount']`; fills empty, status initial (non-terminal). -/
def mkCCXTOrder (dataname : String) (snap : Snapshot) : CCXTOrder :=
  { id := snap.id
    dataname := dataname
    side := snap.side
    ordtype_buy := snap.side == "buy"
    size := snap.amount
    price := none
    status := OStatus.submitted
    executed_fills := []
    executed := [] }

/-- Lines 264-297, `_submit`: map the execution type, unwrap CCXT params,
move the trigger price for `'STOP_MARKET'`, clear the price for `'market'`,
create the order at the gateway, re-fetch its canonical snapshot, construct
the `CCXTOrder`, set its price from the creation response, register it as
open and notify.  A gateway error propagates to the caller. -/
def _submit (order_types : List (Nat × String)) (g : Gateway) (dataname : String)
    (execType : Option Nat) (side : String) (amount : Int) (price : Option Int)
    (params : List (String × PVal)) (st : BrokerState) :
    BrokerState × Except Err CCXTOrder :=
  let order_type := orderTypeFor order_types execType
  let params := unwrapParams params
  let params :=
    if order_type == some "STOP_MARKET" then
      setParam params "stopPrice" (match price with
        | some p => PVal.num p
        | none => PVal.noneVal)
    else params
  let price := if order_type == some "market" then none else price
  let st := { st with gateway_calls := st.gateway_calls ++ [GCall.createOrder dataname] }
  match g.create_order dataname order_type side amount price params with
  | Except.error e => (st, Except.error e)
  | Except.ok ret_ord =>
    let st := { st with gateway_calls := st.gateway_calls ++ [GCall.fetchOrder ret_ord.id dataname] }
    match g.fetch_order ret_ord.id dataname with
    | Except.error e => (st, Except.error e)
    | Except.ok snap =>
      let order := { mkCCXTOrder dataname snap with price := some ret_ord.price }
      let st := { st with open_orders := st.open_orders ++ [order.id]
                          notifs := st.notifs ++ [order.id] }
      (st, Except.ok order)

/-- Lines 344-350, `buy`: `del kwargs['parent']; del kwargs['transmit']`
unconditionally, then `self._submit(owner, data, execType, 'buy', size,
price, kwargs)`.  A `KeyError` from either `del` propagates to the caller
before any gateway interaction. -/
def buy (order_types : List (Nat × String)) (g : Gateway) (dataname : String)
    (size : Int) (price : Option Int) (execType : Option Nat)
    (kwargs : List (String × PVal)) (st : BrokerState) :
    BrokerState × Except Err CCXTOrder :=
  match delKey kwargs "parent" with
  | Except.error e => (st, Except.error e)
  | Except.ok k1 =>
    match delKey k1 "transmit" with
    | Except.error e => (st, Except.error e)
    | Except.ok k2 => _submit order_types g dataname execType "buy" size price k2 st

/-- Lines 352-358, `sell`: identical to `buy` with side `'sell'`. -/
def sell (order_types : List (Nat × String)) (g : Gateway) (dataname : String)
    (size : Int) (price : Option Int) (execType : Option Nat)
    (kwargs : List (String × PVal)) (st : BrokerState) :
    BrokerState × Except Err CCXTOrder :=
  match delKey kwargs "parent" with
  | Except.error e => (st, Except.error e)
  | Except.ok k1 =>
    match delKey k1 "transmit" with
    | Except.error e => (st, Except.error e)
    | Except.ok k2 => _submit order_types g dataname execType "sell" size price k2 st

/-- Lines 360-402, `cancel(order)`: fetch the fresh snapshot; if it satisfies
the closed-order predicate, return the order unchanged; otherwise issue the
gateway cancel, then unconditionally remove from the registry (the
canceled-predicate check at line 398 is commented out), mark canceled and
notify.  Errors (fetch/cancel failures, `KeyError` on the mapping lookup,
`ValueError` on the removal) propagate to the caller; mutations performed
before the raise persist. -/
def cancel (m : Mappings) (g : Gateway) (o : CCXTOrder) (st : BrokerState) :
    BrokerState × Except Err CCXTOrder :=
  let st := { st with gateway_calls := st.gateway_calls ++ [GCall.fetchOrder o.id o.dataname] }
  match g.fetch_order o.id o.dataname with
  | Except.error e => (st, Except.error e)
  | Except.ok snap =>
    match snapGet snap m.closed_key with
    | Except.error e => (st, Except.error e)
    | Except.ok v =>
      if v == m.closed_value then (st, Except.ok o)
      else
        let st := { st with gateway_calls := st.gateway_calls ++ [GCall.cancelOrder o.id o.dataname] }
        match g.cancel_order o.id o.dataname with
        | Except.error e => (st, Except.error e)
        | Except.ok _ =>
          match listRemove st.open_orders o.id with
          | Except.error e => (st, Except.error e)
          | Except.ok rest =>
            let st := { st with open_orders := rest }
            let (o, st) := cancelStep o st
            let (o, st) := notifyStep o st
            (st, Except.ok o)

/-- Line 306: `returned_order['symbol'].split('USDT')[0] + '/USDT'`. -/
def batchSymbol (s : String) : String :=
  (match s.splitOn "USDT" with
   | [] => ""
   | h :: _ => h) ++ "/USDT"

/-- Lines 307-315, the inner `for owner_data in owner_data_list` loop for one
returned order: for every matching symbol, construct the `CCXTOrder` from the
fetched snapshot, set its price from the batch response, register and notify. -/
def batchMatchOwners (r : RetOrder) (snap : Snapshot)
    (owner_data_list : List OwnerData) (acc : List CCXTOrder) (st : BrokerState) :
    List CCXTOrder × BrokerState :=
  owner_data_list.foldl
    (fun (p : List CCXTOrder × BrokerState) od =>
      if r.symbol == od.symbol then
        let order := { mkCCXTOrder od.dataname snap with price := some r.price }
        (p.1 ++ [order],
         { p.2 with open_orders := p.2.open_orders ++ [order.id]
                    notifs := p.2.notifs ++ [order.id] })
      else p)
    (acc, st)

/-- Lines 305-315, the outer `for returned_order in returned_orders` loop:
fetch each canonical snapshot, then match owners.  Returns the error that
aborted the loop, if any; mutations before the raise persist. -/
def batchLoop (g : Gateway) (rets : List RetOrder) (owner_data_list : List OwnerData)
    (acc : List CCXTOrder) (st : BrokerState) :
    List CCXTOrder × BrokerState × Option Err :=
  match rets with
  | [] => (acc, st, none)
  | r :: rest =>
    let st := { st with gateway_calls := st.gateway_calls ++ [GCall.fetchOrder r.orderId (batchSymbol r.symbol)] }
    match g.fetch_order r.orderId (batchSymbol r.symbol) with
    | Except.error e => (acc, st, some e)
    | Except.ok snap =>
      let (acc, st) := batchMatchOwners r snap owner_data_list acc st
      batchLoop g rest owner_data_list acc st

/-- Lines 299-319, `submit_batch_order(orders)`: one gateway batch-creation
call, then the per-item loop.  The whole body is inside `try/except
Exception`; the handler prints (logs) the error and falls off the end of the
function, so the caller receives Python `None` (`Option.none`) instead of
the accumulated list — mutations already performed persist. -/
def submit_batch_order (g : Gateway) (orders : List String) (st : BrokerState) :
    BrokerState × Option (List CCXTOrder) :=
  let st := { st with gateway_calls := st.gateway_calls ++ [GCall.createBatch] }
  match g.create_batch_order orders with
  | Except.error e => ({ st with log := st.log ++ [errLine e] }, none)
  | Except.ok (rets, owner_data_list) =>
    match batchLoop g rets owner_data_list [] st with
    | (_, st, some e) => ({ st with log := st.log ++ [errLine e] }, none)
    | (acc, st, none) => (st, some acc)

/-- The spec's registry/terminal invariant P1 at one observable instant:
the order is in the open-order registry iff its status is non-terminal. -/
def invariantHolds (p : CCXTOrder × BrokerState) : Bool :=
  p.2.open_orders.contains p.1.id == p.1.status.nonTerminal

/-- P1 evaluated at the i-th observable instant of a transition trace
(vacuously true past the end). -/
def invariantAt (l : List (CCXTOrder × BrokerState)) (i : Nat) : Bool :=
  match l.get? i with
  | some p => invariantHolds p
  | none => true

/-- What an observer sees at the i-th instant of a trace: the order's status,
whether it is still in the registry, and the notification queue. -/
def traceObs (l : List (CCXTOrder × BrokerState)) (i : Nat) :
    Option (OStatus × Bool × List String) :=
  match l.get? i with
  | some p => some (p.1.status, p.2.open_orders.contains p.1.id, p.2.notifs)
  | none => none

/-- Example fill `{id: "f1", datetime: "t1", amount: 1, price: 100}`. -/
def exFill : Fill := { id := "f1", datetime := "t1", amount := 1, price := 100 }

/-- Example open order, registered under id `"o1"`. -/
def exOrder : CCXTOrder :=
  { id := "o1", dataname := "BTC/USDT", side := "buy", ordtype_buy := true
    size := 1, price := some 100, status := OStatus.submitted
    executed_fills := [], executed := [] }

/-- Example broker state with `exOrder` registered and everything else empty. -/
def exState : BrokerState :=
  { open_orders := ["o1"], notifs := [], posUpdates := [], gateway_calls := []
    log := [] }

/-- Broker state with an empty registry. -/
def emptyState : BrokerState :=
  { open_orders := [], notifs := [], posUpdates := [], gateway_calls := []
    log := [] }

/-- A custom mapping table as allowed by `broker_mapping` (cf. the class
docstring, lines 89-97): the closed and canceled outcomes are recognized on
different snapshot fields, so one snapshot can satisfy both predicates. -/
def mBoth : Mappings :=
  { closed_key := "status", closed_value := "closed"
    canceled_key := "result", canceled_value := "1" }

/-- A snapshot satisfying both the closed and the canceled predicate of
`mBoth`. -/
def snapBoth : Snapshot :=
  { id := "o1", side := "buy", amount := 1, price := 100
    fields := [("status", "closed"), ("result", "1")], trades := none }

/-- A snapshot that satisfies the default closed-order predicate. -/
def snapClosed : Snapshot :=
  { id := "o1", side := "buy", amount := 1, price := 100
    fields := [("status", "closed")], trades := none }

/-- A still-open snapshot (status `"open"`). -/
def snapOpen : Snapshot :=
  { id := "o1", side := "buy", amount := 1, price := 100
    fields := [("status", "open")], trades := none }

/-- A still-open snapshot carrying one fill. -/
def snapTrades : Snapshot :=
  { id := "o1", side := "buy", amount := 1, price := 100
    fields := [("status", "open")], trades := some [exFill] }

/-- A snapshot whose mapping key (`status`) is absent — the configuration-
mismatch case — while carrying one fill. -/
def snapNoStatus : Snapshot :=
  { id := "o1", side := "buy", amount := 1, price := 100
    fields := [("result", "1")], trades := some [exFill] }

/-- A gateway whose every call raises. -/
def gwFail : Gateway :=
  { fetch_order := fun _ _ => Except.error (Err.gatewayError "down")
    cancel_order := fun _ _ => Except.error (Err.gatewayError "down")
    create_order := fun _ _ _ _ _ _ => Except.error (Err.gatewayError "down")
    create_batch_order := fun _ => Except.error (Err.gatewayError "down") }

/-- A gateway whose order fetch always returns the given snapshot. -/
def gwOf (snap : Snapshot) : Gateway :=
  { gwFail with fetch_order := fun _ _ => Except.ok snap }

/-- A gateway on which an order can be fetched (still open) and canceled. -/
def gwCancelable : Gateway :=
  { gwFail with fetch_order := fun _ _ => Except.ok snapOpen
                cancel_order := fun _ _ => Except.ok snapOpen }

/-- First batch-creation response item. -/
def rB1 : RetOrder := { orderId := "b1", symbol := "BTCUSDT", price := 9 }

/-- Second batch-creation response item. -/
def rB2 : RetOrder := { orderId := "b2", symbol := "ETHUSDT", price := 5 }

/-- Owner/data pair matching `rB1`. -/
def odB1 : OwnerData := { owner := "s", dataname := "BTC/USDT", symbol := "BTCUSDT" }

/-- Owner/data pair matching `rB2`. -/
def odB2 : OwnerData := { owner := "s", dataname := "ETH/USDT", symbol := "ETHUSDT" }

/-- Canonical snapshot of the first batch order. -/
def snapB1 : Snapshot :=
  { id := "b1", side := "buy", amount := 1, price := 9
    fields := [("status", "open")], trades := none }

/-- A gateway where batch creation succeeds for both items but fetching the
second order's canonical snapshot raises. -/
def gwBatch : Gateway :=
  { gwFail with
    create_batch_order := fun _ => Except.ok ([rB1, rB2], [odB1, odB2])
    fetch_order := fun oid _ =>
      if oid == "b1" then Except.ok snapB1 else Except.error (Err.gatewayError "boom") }

/-- kwargs carrying both mandatory keys. -/
def kwFull : List (String × PVal) := [("parent", PVal.noneVal), ("transmit", PVal.noneVal)]

/-- kwargs missing `parent`. -/
def kwNoParent : List (String × PVal) := [("transmit", PVal.noneVal)]

/-- kwargs missing `transmit`. -/
def kwNoTransmit : List (String × PVal) := [("parent", PVal.noneVal)]

theorem applyOneFill_id (o : CCXTOrder) (f : Fill) : (applyOneFill o f).id = o.id := by
  unfold applyOneFill; split <;> rfl

theorem applyOneFill_status (o : CCXTOrder) (f : Fill) :
    (applyOneFill o f).status = o.status := by
  unfold applyOneFill; split <;> rfl

theorem applyFills_id : ∀ (ts : List Fill) (o : CCXTOrder), (applyFills o ts).id = o.id
  | [], _ => rfl
  | f :: rest, o => by
    show (applyFills (applyOneFill o f) rest).id = o.id
    rw [applyFills_id rest (applyOneFill o f), applyOneFill_id]

theorem applyFills_status : ∀ (ts : List Fill) (o : CCXTOrder),
    (applyFills o ts).status = o.status
  | [], _ => rfl
  | f :: rest, o => by
    show (applyFills (applyOneFill o f) rest).status = o.status
    rw [applyFills_status rest (applyOneFill o f), applyOneFill_status]

theorem applyTrades_id (t : Option (List Fill)) (o : CCXTOrder) :
    (applyTrades o t).id = o.id := by
  cases t <;> simp [applyTrades, applyFills_id]

theorem applyTrades_status (t : Option (List Fill)) (o : CCXTOrder) :
    (applyTrades o t).status = o.status := by
  cases t <;> simp [applyTrades, applyFills_status]

theorem contains_of_count_one {l : List String} {x : String} (h : l.count x = 1) :
    l.contains x = true := by
  have hx : x ∈ l := List.count_pos_iff.mp (by omega)
  exact List.elem_iff.mpr hx

theorem erase_contains_of_count_one {l : List String} {x : String}
    (h : l.count x = 1) : (l.erase x).contains x = false := by
  have h2 : (l.erase x).count x = 0 := by
    rw [List.count_erase_self]; omega
  have hx : x ∉ l.erase x := by
    rw [← List.count_pos_iff]; omega
  simp [List.elem_iff, hx]

theorem closed_transition_ok (o : CCXTOrder) (st : BrokerState)
    (h : st.open_orders.contains o.id = true) :
    closed_transition o st =
      ({ o with status := OStatus.completed },
       { st with posUpdates := st.posUpdates ++ [(o.dataname, o.size, o.price)]
                 notifs := st.notifs ++ [o.id]
                 open_orders := st.open_orders.erase o.id
                 gateway_calls := st.gateway_calls ++ [GCall.getBalance] },
       none) := by
  have hm : o.id ∈ st.open_orders := List.elem_iff.mp h
  simp [closed_transition, posUpdateStep, completedStep, notifyStep, getBalanceStep,
    listRemove, hm]

theorem closed_transition_err (o : CCXTOrder) (st : BrokerState)
    (h : st.open_orders.contains o.id = false) :
    closed_transition o st =
      ({ o with status := OStatus.completed },
       { st with posUpdates := st.posUpdates ++ [(o.dataname, o.size, o.price)]
                 notifs := st.notifs ++ [o.id] },
       some Err.consistencyError) := by
  have hm : o.id ∉ st.open_orders := by simpa using h
  simp [closed_transition, posUpdateStep, completedStep, notifyStep, listRemove, hm]

theorem canceled_transition_ok (o : CCXTOrder) (st : BrokerState)
    (h : st.open_orders.contains o.id = true) :
    canceled_transition o st =
      ({ o with status := OStatus.canceled },
       { st with posUpdates := st.posUpdates ++ [(o.dataname, o.size, o.price)]
                 notifs := st.notifs ++ [o.id]
                 open_orders := st.open_orders.erase o.id
                 gateway_calls := st.gateway_calls ++ [GCall.getBalance] },
       none) := by
  have hm : o.id ∈ st.open_orders := List.elem_iff.mp h
  simp [canceled_transition, posUpdateStep, cancelStep, notifyStep, getBalanceStep,
    listRemove, hm]

theorem canceled_transition_err (o : CCXTOrder) (st : BrokerState)
    (h : st.open_orders.contains o.id = false) :
    canceled_transition o st =
      ({ o with status := OStatus.canceled },
       { st with posUpdates := st.posUpdates ++ [(o.dataname, o.size, o.price)]
                 notifs := st.notifs ++ [o.id] },
       some Err.consistencyError) := by
  have hm : o.id ∉ st.open_orders := by simpa using h
  simp [canceled_transition, posUpdateStep, cancelStep, notifyStep, listRemove, hm]

theorem closed_transition_trace_get3 (o : CCXTOrder) (st : BrokerState) :
    (closed_transition_trace o st).get? 3 =
      some ({ o with status := OStatus.completed },
        { st with posUpdates := st.posUpdates ++ [(o.dataname, o.size, o.price)]
                  notifs := st.notifs ++ [o.id] }) := by
  simp only [closed_transition_trace, posUpdateStep, completedStep, notifyStep,
    getBalanceStep]
  split <;> rfl

theorem fires_iff (s : Nat) : fires s = true ↔ s = 30 := by
  unfold fires
  rw [decide_eq_true_iff]
  constructor
  · intro h
    have : (s : ℚ) = 30 := by
      field_simp at h
      exact_mod_cast h
    exact_mod_cast this
  · intro h; subst h; norm_num

/-- C1: the fill-application loop at lines 166-174 is NOT idempotent.  The
membership test `fill not in o_order.executed_fills` compares the fill dict
against the stored fill-id strings and therefore never succeeds; a snapshot
carrying fill `f1` re-applies `f1` on every application: after one
application the executed-fill record is `[f1]` and the id `"f1"` is
recorded, after applying the same snapshot a second time (both at
`applyFills` level and through `_fetch_order_updates` with the same fetched
snapshot) the executed-fill record is `[f1, f1]`. -/
theorem fill_reapplied_on_duplicate_snapshot :
    (applyFills exOrder [exFill]).executed = [exFill] ∧
    (applyFills exOrder [exFill]).executed_fills = [FillsEntry.idStr "f1"] ∧
    (applyFills (applyFills exOrder [exFill]) [exFill]).executed = [exFill, exFill] ∧
    (_fetch_order_updates defaultMappings (gwOf snapTrades)
        (_fetch_order_updates defaultMappings (gwOf snapTrades) exOrder exState).1
        (_fetch_order_updates defaultMappings (gwOf snapTrades) exOrder exState).2).1.executed
      = [exFill, exFill] := by
  decide

/-- C4: the polling-loop condition `dt.datetime.now().second / 30 == 1`
(true division) does NOT fire at every second-of-minute divisible by 30: it
is false at second 0 (although 0 is a multiple of 30) and true only at
second 30, so the loop fires once per minute, not once per 30-second
window; at second 0 no reconciliation task is launched even with an open
order, at second 30 one task per open order is launched. -/
theorem cadence_fires_only_at_second_thirty :
    fires 0 = false ∧ (0 : Nat) % 30 = 0 ∧ fires 30 = true ∧
    fires 15 = false ∧ fires 45 = false ∧
    fetch_order_updates_tick 0 ["o1"] = [] ∧
    fetch_order_updates_tick 30 ["o1", "o2"] = ["o1", "o2"] := by
  have h0 : fires 0 = false := Bool.eq_false_iff.mpr (by simp [fires_iff])
  have h30 : fires 30 = true := (fires_iff 30).mpr rfl
  have h15 : fires 15 = false := Bool.eq_false_iff.mpr (by simp [fires_iff])
  have h45 : fires 45 = false := Bool.eq_false_iff.mpr (by simp [fires_iff])
  refine ⟨h0, rfl, h30, h15, h45, ?_, ?_⟩ <;>
    simp [fetch_order_updates_tick, h0, h30]

/-- C6 counterexample: an execution type that is present (truthy) but unknown
to the order-type table does NOT map to `'market'`: line 266 evaluates
`self.order_types.get(execType)`, which yields Python `None`. -/
theorem unknown_exec_type_not_market_cex :
    orderTypeFor default_order_types (some 7) = none ∧
    default_order_types.lookup 7 = none ∧
    orderTypeFor default_order_types (some 7) ≠ some "market" := by
  decide

/-- C6 amended: an absent execution type (`None`, or `Order.Market = 0`,
both falsy) maps to `'market'`; a non-zero execution type goes through
`order_types.get` and therefore maps to the table entry — which is `None`,
not `'market'`, when the type is unknown to the table. -/
theorem exec_type_mapping_characterization (t : List (Nat × String)) (e : Nat) :
    orderTypeFor t none = some "market" ∧
    orderTypeFor t (some 0) = some "market" ∧
    (e ≠ 0 → orderTypeFor t (some e) = t.lookup e) := by
  refine ⟨rfl, by simp [orderTypeFor], fun h => by simp [orderTypeFor, h]⟩

/-- Witness for C6: the characterization evaluated at the default table,
at the unknown execution type 7 and at an absent execution type. -/
theorem exec_type_mapping_characterization_witness :
    (7 : Nat) ≠ 0 ∧
    orderTypeFor default_order_types (some 7) = default_order_types.lookup 7 ∧
    orderTypeFor default_order_types none = some "market" :=
  ⟨by decide,
   (exec_type_mapping_characterization default_order_types 7).2.2 (by decide),
   (exec_type_mapping_characterization default_order_types 7).1⟩

/-- C9: when the freshly fetched snapshot already satisfies the closed-order
predicate, `cancel` (lines 370-382) returns the order itself unchanged and
the only state change is the recorded fetch gateway call: no cancel call is
issued, the order is not unregistered, no notification is enqueued, no
position or log entry is produced. -/
theorem cancel_noop_when_closed (m : Mappings) (g : Gateway) (o : CCXTOrder)
    (st : BrokerState) (snap : Snapshot)
    (hf : g.fetch_order o.id o.dataname = Except.ok snap)
    (hc : snapGet snap m.closed_key = Except.ok m.closed_value) :
    cancel m g o st =
      ({ st with gateway_calls :=
          st.gateway_calls ++ [GCall.fetchOrder o.id o.dataname] },
       Except.ok o) := by
  simp [cancel, hf, hc]

/-- Witness for C9: cancel of `exOrder` against a gateway reporting the
default closed status is a no-op. -/
theorem cancel_noop_when_closed_witness :
    (gwOf snapClosed).fetch_order exOrder.id exOrder.dataname = Except.ok snapClosed ∧
    snapGet snapClosed defaultMappings.closed_key = Except.ok defaultMappings.closed_value ∧
    cancel defaultMappings (gwOf snapClosed) exOrder exState =
      ({ exState with gateway_calls :=
          exState.gateway_calls ++ [GCall.fetchOrder exOrder.id exOrder.dataname] },
       Except.ok exOrder) :=
  ⟨rfl, rfl,
   cancel_noop_when_closed defaultMappings (gwOf snapClosed) exOrder exState snapClosed
     rfl rfl⟩

/-- C10: `buy` (lines 344-350) and `sell` (lines 352-358) delete
`kwargs['parent']` and `kwargs['transmit']` unconditionally: if `parent` is
absent they raise `KeyError('parent')`, if `parent` is present but
`transmit` absent they raise `KeyError('transmit')`, in both cases
returning the state untouched (in particular no gateway call was issued);
when both keys are present the deletions succeed and the call proceeds to
`_submit` with the respective side — the error branch is unreachable. -/
theorem buy_requires_parent_transmit :
    (∀ (ot : List (Nat × String)) (g : Gateway) (d : String) (sz : Int)
        (pr : Option Int) (et : Option Nat) (kwargs : List (String × PVal))
        (st : BrokerState), kwLookup kwargs "parent" = none →
        buy ot g d sz pr et kwargs st = (st, Except.error (Err.keyError "parent")) ∧
        sell ot g d sz pr et kwargs st = (st, Except.error (Err.keyError "parent"))) ∧
    (∀ (ot : List (Nat × String)) (g : Gateway) (d : String) (sz : Int)
        (pr : Option Int) (et : Option Nat) (kwargs k1 : List (String × PVal))
        (st : BrokerState), delKey kwargs "parent" = Except.ok k1 →
        kwLookup k1 "transmit" = none →
        buy ot g d sz pr et kwargs st = (st, Except.error (Err.keyError "transmit")) ∧
        sell ot g d sz pr et kwargs st = (st, Except.error (Err.keyError "transmit"))) ∧
    (∀ (ot : List (Nat × String)) (g : Gateway) (d : String) (sz : Int)
        (pr : Option Int) (et : Option Nat) (kwargs k1 k2 : List (String × PVal))
        (st : BrokerState), delKey kwargs "parent" = Except.ok k1 →
        delKey k1 "transmit" = Except.ok k2 →
        buy ot g d sz pr et kwargs st = _submit ot g d et "buy" sz pr k2 st ∧
        sell ot g d sz pr et kwargs st = _submit ot g d et "sell" sz pr k2 st) := by
  refine ⟨?_, ?_, ?_⟩
  · intro ot g d sz pr et kwargs st h
    constructor
    · simp [buy, delKey, h]
    · simp [sell, delKey, h]
  · intro ot g d sz pr et kwargs k1 st h1 h2
    constructor
    · simp only [buy, h1]
      simp [delKey, h2]
    · simp only [sell, h1]
      simp [delKey, h2]
  · intro ot g d sz pr et kwargs k1 k2 st h1 h2
    exact ⟨by simp [buy, h1, h2], by simp [sell, h1, h2]⟩

/-- Witness for C10: for both `buy` and `sell`, a call without `parent`
raises `KeyError('parent')`, one without `transmit` raises
`KeyError('transmit')`, and a call carrying both proceeds to `_submit`
with both keys removed and the respective side. -/
theorem buy_requires_parent_transmit_witness :
    kwLookup kwNoParent "parent" = none ∧
    buy default_order_types gwFail "BTC/USDT" 1 none none kwNoParent emptyState =
      (emptyState, Except.error (Err.keyError "parent")) ∧
    sell default_order_types gwFail "BTC/USDT" 1 none none kwNoParent emptyState =
      (emptyState, Except.error (Err.keyError "parent")) ∧
    buy default_order_types gwFail "BTC/USDT" 1 none none kwNoTransmit emptyState =
      (emptyState, Except.error (Err.keyError "transmit")) ∧
    sell default_order_types gwFail "BTC/USDT" 1 none none kwNoTransmit emptyState =
      (emptyState, Except.error (Err.keyError "transmit")) ∧
    buy default_order_types gwFail "BTC/USDT" 1 none none kwFull emptyState =
      _submit default_order_types gwFail "BTC/USDT" none "buy" 1 none [] emptyState ∧
    sell default_order_types gwFail "BTC/USDT" 1 none none kwFull emptyState =
      _submit default_order_types gwFail "BTC/USDT" none "sell" 1 none [] emptyState :=
  ⟨rfl,
   (buy_requires_parent_transmit.1 default_order_types gwFail "BTC/USDT" 1 none none
     kwNoParent emptyState rfl).1,
   (buy_requires_parent_transmit.1 default_order_types gwFail "BTC/USDT" 1 none none
     kwNoParent emptyState rfl).2,
   (buy_requires_parent_transmit.2.1 default_order_types gwFail "BTC/USDT" 1 none none
     kwNoTransmit [] emptyState rfl rfl).1,
   (buy_requires_parent_transmit.2.1 default_order_types gwFail "BTC/USDT" 1 none none
     kwNoTransmit [] emptyState rfl rfl).2,
   (buy_requires_parent_transmit.2.2 default_order_types gwFail "BTC/USDT" 1 none none
     kwFull [("transmit", PVal.noneVal)] [] emptyState rfl rfl).1,
   (buy_requires_parent_transmit.2.2 default_order_types gwFail "BTC/USDT" 1 none none
     kwFull [("transmit", PVal.noneVal)] [] emptyState rfl rfl).2⟩

/-- C8: removing an order from the open-order registry when it is absent
raises the fatal consistency error (Python `ValueError` from `list.remove`,
the spec's ConsistencyError), and the operation that triggered the removal
never swallows it silently: in `cancel` (line 399, unguarded) the error
propagates to the caller, and in `_fetch_order_updates` (line 185/192,
inside the generic `try/except`) the handler logs it. -/
theorem double_removal_consistency_error :
    (∀ (l : List String) (x : String), l.contains x = false →
        listRemove l x = Except.error Err.consistencyError) ∧
    (∀ (m : Mappings) (g : Gateway) (o : CCXTOrder) (st : BrokerState)
        (snap snap2 : Snapshot) (v : String),
        g.fetch_order o.id o.dataname = Except.ok snap →
        snapGet snap m.closed_key = Except.ok v → (v == m.closed_value) = false →
        g.cancel_order o.id o.dataname = Except.ok snap2 →
        st.open_orders.contains o.id = false →
        (cancel m g o st).2 = Except.error Err.consistencyError) ∧
    (∀ (m : Mappings) (g : Gateway) (o : CCXTOrder) (st : BrokerState)
        (snap : Snapshot),
        g.fetch_order o.id o.dataname = Except.ok snap →
        snapGet snap m.closed_key = Except.ok m.closed_value →
        st.open_orders.contains o.id = false →
        (_fetch_order_updates m g o st).2.log =
          st.log ++ [errLine Err.consistencyError]) := by
  refine ⟨?_, ?_, ?_⟩
  · intro l x h
    have hm : x ∉ l := by simpa using h
    simp [listRemove, hm]
  · intro m g o st snap snap2 v hf hc hv hk hcont
    have hm : o.id ∉ st.open_orders := by simpa using hcont
    simp [cancel, hf, hc, hv, hk, listRemove, hm]
  · intro m g o st snap hf hc hcont
    have hid : (applyTrades o snap.trades).id = o.id := applyTrades_id _ _
    have herr := closed_transition_err (applyTrades o snap.trades)
      { st with gateway_calls := st.gateway_calls ++ [GCall.fetchOrder o.id o.dataname] }
      (by simpa [hid] using hcont)
    simp [_fetch_order_updates, hf, reconcileSnapshot, hc, herr]

/-- Witness for C8: removal from an empty registry errors; `cancel` of an
unregistered order on a cancelable gateway propagates the consistency error
to the caller; a reconciliation that observes the closed predicate for an
unregistered order logs the consistency error. -/
theorem double_removal_consistency_error_witness :
    ([] : List String).contains "o1" = false ∧
    listRemove [] "o1" = Except.error Err.consistencyError ∧
    (cancel defaultMappings gwCancelable exOrder emptyState).2 =
      Except.error Err.consistencyError ∧
    (_fetch_order_updates defaultMappings (gwOf snapClosed) exOrder emptyState).2.log =
      emptyState.log ++ [errLine Err.consistencyError] :=
  ⟨rfl,
   double_removal_consistency_error.1 [] "o1" rfl,
   double_removal_consistency_error.2.1 defaultMappings gwCancelable exOrder emptyState
     snapOpen snapOpen "open" rfl rfl rfl rfl rfl,
   double_removal_consistency_error.2.2 defaultMappings (gwOf snapClosed) exOrder
     emptyState snapClosed rfl rfl rfl⟩

/-- C2 counterexample: with a mapping table that recognizes closed and
canceled on different snapshot fields (as the class docstring's
`broker_mapping` example does), a snapshot satisfying BOTH predicates does
NOT leave the order closed.  The two checks at lines 180 and 187 are
independent `if`s: the closed branch runs first, then the canceled branch
runs too and overwrites the status, so the resulting status is canceled. -/
theorem both_predicates_status_canceled_cex :
    (_fetch_order_updates mBoth (gwOf snapBoth) exOrder exState).1.status =
      OStatus.canceled ∧
    (_fetch_order_updates mBoth (gwOf snapBoth) exOrder exState).1.status ≠
      OStatus.completed := by
  decide


theorem closed_transition_spec (o : CCXTOrder) (st : BrokerState)
    (h : st.open_orders.contains o.id = true) :
    ∃ o2 st2, closed_transition o st = (o2, st2, none) ∧
      o2.id = o.id ∧ o2.status = OStatus.completed ∧
      st2.open_orders = st.open_orders.erase o.id ∧
      st2.notifs = st.notifs ++ [o.id] ∧ st2.log = st.log ∧
      st2.gateway_calls = st.gateway_calls ++ [GCall.getBalance] := by
  refine ⟨_, _, closed_transition_ok o st h, rfl, rfl, rfl, rfl, rfl, rfl⟩

theorem canceled_transition_err_spec (o : CCXTOrder) (st : BrokerState)
    (h : st.open_orders.contains o.id = false) :
    ∃ o3 st3, canceled_transition o st = (o3, st3, some Err.consistencyError) ∧
      o3.status = OStatus.canceled ∧ st3.notifs = st.notifs ++ [o.id] ∧
      st3.log = st.log := by
  refine ⟨_, _, canceled_transition_err o st h, rfl, rfl, rfl⟩

/-- C2 amended: on a snapshot satisfying both the closed- and the
canceled-order predicate, both branches execute in order; the canceled
branch runs second, so the resulting status is canceled (not closed), the
order is notified twice, and the canceled branch's duplicate registry
removal raises the consistency error, which the task's handler logs. -/
theorem both_predicates_canceled_wins (m : Mappings) (g : Gateway) (o : CCXTOrder)
    (st : BrokerState) (snap : Snapshot)
    (hf : g.fetch_order o.id o.dataname = Except.ok snap)
    (hc : snapGet snap m.closed_key = Except.ok m.closed_value)
    (hx : snapGet snap m.canceled_key = Except.ok m.canceled_value)
    (hcount : st.open_orders.count o.id = 1) :
    (_fetch_order_updates m g o st).1.status = OStatus.canceled ∧
    (_fetch_order_updates m g o st).2.notifs = st.notifs ++ [o.id, o.id] ∧
    (_fetch_order_updates m g o st).2.log =
      st.log ++ [errLine Err.consistencyError] := by
  have hid : (applyTrades o snap.trades).id = o.id := applyTrades_id _ _
  obtain ⟨o2, st2, heq2, ho2id, ho2stat, hopen2, hnot2, hlog2, _⟩ :=
    closed_transition_spec (applyTrades o snap.trades)
      { st with gateway_calls := st.gateway_calls ++ [GCall.fetchOrder o.id o.dataname] }
      (by simpa [hid] using contains_of_count_one hcount)
  have hcont2 : st2.open_orders.contains o2.id = false := by
    rw [hopen2, ho2id]
    simpa [hid] using erase_contains_of_count_one hcount
  obtain ⟨o3, st3, heq3, ho3stat, hnot3, hlog3⟩ :=
    canceled_transition_err_spec o2 st2 hcont2
  have hfin : _fetch_order_updates m g o st =
      (o3, { st3 with log := st3.log ++ [errLine Err.consistencyError] }) := by
    simp [_fetch_order_updates, hf, reconcileSnapshot, hc, hx, heq2, heq3]
  rw [hfin]
  refine ⟨ho3stat, ?_, ?_⟩
  · simp [hnot3, hnot2, ho2id, hid]
  · simp [hlog3, hlog2]

/-- Witness for C2's amended theorem: the concrete both-predicates snapshot
drives the registered example order to canceled with a double notification
and a logged consistency error. -/
theorem both_predicates_canceled_wins_witness :
    (gwOf snapBoth).fetch_order exOrder.id exOrder.dataname = Except.ok snapBoth ∧
    snapGet snapBoth mBoth.closed_key = Except.ok mBoth.closed_value ∧
    snapGet snapBoth mBoth.canceled_key = Except.ok mBoth.canceled_value ∧
    exState.open_orders.count exOrder.id = 1 ∧
    (_fetch_order_updates mBoth (gwOf snapBoth) exOrder exState).1.status =
      OStatus.canceled ∧
    (_fetch_order_updates mBoth (gwOf snapBoth) exOrder exState).2.notifs =
      exState.notifs ++ [exOrder.id, exOrder.id] ∧
    (_fetch_order_updates mBoth (gwOf snapBoth) exOrder exState).2.log =
      exState.log ++ [errLine Err.consistencyError] := by
  have h := both_predicates_canceled_wins mBoth (gwOf snapBoth) exOrder exState snapBoth
    rfl rfl rfl (by decide)
  exact ⟨rfl, rfl, rfl, by decide, h.1, h.2.1, h.2.2⟩

/-- C3 counterexample: the registry/terminal invariant does NOT hold at every
observable instant.  In the closed branch (lines 180-186) the terminal
status is set (line 183) and the notification enqueued (line 184) before
the registry removal (line 185): at the observable instant after the notify
— exhibited as element 3 of the branch's step trace — the example order has
terminal status `completed`, is still a member of the open-order registry,
and is already visible to the notification consumer. -/
theorem terminal_while_registered_cex :
    invariantAt (closed_transition_trace exOrder exState) 3 = false ∧
    traceObs (closed_transition_trace exOrder exState) 3 =
      some (OStatus.completed, true, ["o1"]) := by
  decide

/-- C3 amended: the registry/terminal invariant holds at the start and at the
completion of a closed transition of a registered open order, but not at
every instant in between: at the instant after the terminal status is set
and the notification enqueued, and before the registry removal, the order
has terminal status while still registered. -/
theorem registry_invariant_boundary_only (o : CCXTOrder) (st : BrokerState)
    (h1 : st.open_orders.count o.id = 1) (h2 : o.status = OStatus.submitted) :
    invariantHolds (o, st) = true ∧
    (closed_transition o st).2.2 = none ∧
    invariantHolds ((closed_transition o st).1, (closed_transition o st).2.1) = true ∧
    invariantAt (closed_transition_trace o st) 3 = false := by
  have hcont := contains_of_count_one h1
  have herase := erase_contains_of_count_one h1
  have hmem : o.id ∈ st.open_orders := List.elem_iff.mp hcont
  have hnmem : o.id ∉ st.open_orders.erase o.id := by simpa using herase
  have hok := closed_transition_ok o st hcont
  refine ⟨?_, ?_, ?_, ?_⟩
  · simp [invariantHolds, hmem, h2, OStatus.nonTerminal]
  · simp [hok]
  · rw [hok]
    simp [invariantHolds, hnmem, OStatus.nonTerminal]
  · simp only [invariantAt, closed_transition_trace_get3]
    simp [invariantHolds, hmem, OStatus.nonTerminal]

/-- Witness for C3's amended theorem at the example order and state. -/
theorem registry_invariant_boundary_only_witness :
    exState.open_orders.count exOrder.id = 1 ∧
    exOrder.status = OStatus.submitted ∧
    invariantHolds (exOrder, exState) = true ∧
    (closed_transition exOrder exState).2.2 = none ∧
    invariantHolds ((closed_transition exOrder exState).1,
      (closed_transition exOrder exState).2.1) = true ∧
    invariantAt (closed_transition_trace exOrder exState) 3 = false := by
  have h := registry_invariant_boundary_only exOrder exState (by decide) rfl
  exact ⟨by decide, rfl, h.1, h.2.1, h.2.2.1, h.2.2.2⟩

/-- C7 counterexample: a reconciliation task whose snapshot lacks the
closed-order mapping key (configuration mismatch) is NOT free of side
effects: the fill loop (lines 166-174) has already run when the lookup at
line 180 raises, so the caught-and-logged error leaves the order's
executed-fill state changed (the fill was applied), even though the order
stays open and registered. -/
theorem reconcile_error_fill_side_effect_cex :
    (_fetch_order_updates defaultMappings (gwOf snapNoStatus) exOrder exState).2.log =
      exState.log ++ [errLine (Err.keyError "status")] ∧
    exOrder.executed = [] ∧
    (_fetch_order_updates defaultMappings (gwOf snapNoStatus) exOrder exState).1.executed =
      [exFill] ∧
    (_fetch_order_updates defaultMappings (gwOf snapNoStatus) exOrder exState).2.open_orders =
      exState.open_orders := by
  decide

/-- C7 amended: any error while fetching or interpreting the snapshot is
caught and logged and the task exits without propagating, but nothing is
rolled back: side effects performed before the raise persist and only the
remainder of the task is skipped.  Concretely: a fetch failure has no side
effects; a closed-key lookup failure — and likewise a canceled-key lookup
failure when the closed predicate did not hold — leaves the order's status,
registry membership, notification queue and position events untouched (the
order remains open and registered, retried on the next cadence), though
fill applications performed before the error persist; a canceled-key lookup
failure after the closed predicate held is logged only after the whole
closed branch ran — the order is then already completed, notified once,
unregistered, and the balance refresh was issued. -/
theorem reconcile_error_logged_limited_effects :
    (∀ (m : Mappings) (g : Gateway) (o : CCXTOrder) (st : BrokerState) (e : Err),
        g.fetch_order o.id o.dataname = Except.error e →
        _fetch_order_updates m g o st =
          (o, { st with
                  gateway_calls := st.gateway_calls ++ [GCall.fetchOrder o.id o.dataname]
                  log := st.log ++ [errLine e] })) ∧
    (∀ (m : Mappings) (g : Gateway) (o : CCXTOrder) (st : BrokerState)
        (snap : Snapshot) (e : Err),
        g.fetch_order o.id o.dataname = Except.ok snap →
        snapGet snap m.closed_key = Except.error e →
        _fetch_order_updates m g o st =
          (applyTrades o snap.trades,
           { st with
               gateway_calls := st.gateway_calls ++ [GCall.fetchOrder o.id o.dataname]
               log := st.log ++ [errLine e] }) ∧
        (applyTrades o snap.trades).status = o.status) ∧
    (∀ (m : Mappings) (g : Gateway) (o : CCXTOrder) (st : BrokerState)
        (snap : Snapshot) (v : String) (e : Err),
        g.fetch_order o.id o.dataname = Except.ok snap →
        snapGet snap m.closed_key = Except.ok v → (v == m.closed_value) = false →
        snapGet snap m.canceled_key = Except.error e →
        _fetch_order_updates m g o st =
          (applyTrades o snap.trades,
           { st with
               gateway_calls := st.gateway_calls ++ [GCall.fetchOrder o.id o.dataname]
               log := st.log ++ [errLine e] }) ∧
        (applyTrades o snap.trades).status = o.status) ∧
    (∀ (m : Mappings) (g : Gateway) (o : CCXTOrder) (st : BrokerState)
        (snap : Snapshot) (e : Err),
        g.fetch_order o.id o.dataname = Except.ok snap →
        snapGet snap m.closed_key = Except.ok m.closed_value →
        snapGet snap m.canceled_key = Except.error e →
        st.open_orders.count o.id = 1 →
        (_fetch_order_updates m g o st).1.status = OStatus.completed ∧
        (_fetch_order_updates m g o st).2.open_orders = st.open_orders.erase o.id ∧
        (_fetch_order_updates m g o st).2.notifs = st.notifs ++ [o.id] ∧
        (_fetch_order_updates m g o st).2.gateway_calls =
          st.gateway_calls ++ [GCall.fetchOrder o.id o.dataname, GCall.getBalance] ∧
        (_fetch_order_updates m g o st).2.log = st.log ++ [errLine e]) := by
  refine ⟨?_, ?_, ?_, ?_⟩
  · intro m g o st e hf
    simp [_fetch_order_updates, hf]
  · intro m g o st snap e hf hc
    refine ⟨?_, applyTrades_status _ _⟩
    simp [_fetch_order_updates, hf, reconcileSnapshot, hc]
  · intro m g o st snap v e hf hc hv hx
    have hv2 : ¬(v = m.closed_value) := by simpa using hv
    refine ⟨?_, applyTrades_status _ _⟩
    simp [_fetch_order_updates, hf, reconcileSnapshot, hc, hv2, hx]
  · intro m g o st snap e hf hc hx hcount
    have hid : (applyTrades o snap.trades).id = o.id := applyTrades_id _ _
    obtain ⟨o2, st2, heq2, ho2id, ho2stat, hopen2, hnot2, hlog2, hcalls2⟩ :=
      closed_transition_spec (applyTrades o snap.trades)
        { st with gateway_calls := st.gateway_calls ++ [GCall.fetchOrder o.id o.dataname] }
        (by simpa [hid] using contains_of_count_one hcount)
    have hfin : _fetch_order_updates m g o st =
        (o2, { st2 with log := st2.log ++ [errLine e] }) := by
      simp [_fetch_order_updates, hf, reconcileSnapshot, hc, hx, heq2]
    rw [hfin]
    refine ⟨ho2stat, ?_, ?_, ?_, ?_⟩
    · simp [hopen2, hid]
    · simp [hnot2, hid]
    · simp [hcalls2]
    · simp [hlog2]

/-- Witness for C7's amended theorem: a failing gateway leaves everything
but the log untouched; the missing-closed-key snapshot leaves status,
registry, notifications untouched while its fill application persists; a
still-open snapshot lacking the canceled key of the two-field mapping does
the same; and a closed snapshot lacking that canceled key runs the whole
closed branch before the error is logged. -/
theorem reconcile_error_logged_limited_effects_witness :
    gwFail.fetch_order exOrder.id exOrder.dataname =
      Except.error (Err.gatewayError "down") ∧
    _fetch_order_updates defaultMappings gwFail exOrder exState =
      (exOrder, { exState with
          gateway_calls := exState.gateway_calls ++ [GCall.fetchOrder exOrder.id exOrder.dataname]
          log := exState.log ++ [errLine (Err.gatewayError "down")] }) ∧
    snapGet snapNoStatus defaultMappings.closed_key =
      Except.error (Err.keyError "status") ∧
    (_fetch_order_updates defaultMappings (gwOf snapNoStatus) exOrder exState =
      (applyTrades exOrder snapNoStatus.trades,
       { exState with
           gateway_calls := exState.gateway_calls ++ [GCall.fetchOrder exOrder.id exOrder.dataname]
           log := exState.log ++ [errLine (Err.keyError "status")] }) ∧
     (applyTrades exOrder snapNoStatus.trades).status = exOrder.status) ∧
    ("open" == mBoth.closed_value) = false ∧
    snapGet snapOpen mBoth.canceled_key = Except.error (Err.keyError "result") ∧
    (_fetch_order_updates mBoth (gwOf snapOpen) exOrder exState =
      (applyTrades exOrder snapOpen.trades,
       { exState with
           gateway_calls := exState.gateway_calls ++ [GCall.fetchOrder exOrder.id exOrder.dataname]
           log := exState.log ++ [errLine (Err.keyError "result")] }) ∧
     (applyTrades exOrder snapOpen.trades).status = exOrder.status) ∧
    snapGet snapClosed mBoth.closed_key = Except.ok mBoth.closed_value ∧
    snapGet snapClosed mBoth.canceled_key = Except.error (Err.keyError "result") ∧
    ((_fetch_order_updates mBoth (gwOf snapClosed) exOrder exState).1.status =
       OStatus.completed ∧
     (_fetch_order_updates mBoth (gwOf snapClosed) exOrder exState).2.open_orders =
       exState.open_orders.erase exOrder.id ∧
     (_fetch_order_updates mBoth (gwOf snapClosed) exOrder exState).2.notifs =
       exState.notifs ++ [exOrder.id] ∧
     (_fetch_order_updates mBoth (gwOf snapClosed) exOrder exState).2.gateway_calls =
       exState.gateway_calls ++ [GCall.fetchOrder exOrder.id exOrder.dataname,
         GCall.getBalance] ∧
     (_fetch_order_updates mBoth (gwOf snapClosed) exOrder exState).2.log =
       exState.log ++ [errLine (Err.keyError "result")]) :=
  ⟨rfl,
   reconcile_error_logged_limited_effects.1 defaultMappings gwFail exOrder exState _ rfl,
   rfl,
   reconcile_error_logged_limited_effects.2.1 defaultMappings (gwOf snapNoStatus) exOrder
     exState snapNoStatus _ rfl rfl,
   rfl, rfl,
   reconcile_error_logged_limited_effects.2.2.1 mBoth (gwOf snapOpen) exOrder exState
     snapOpen "open" _ rfl rfl rfl rfl,
   rfl, rfl,
   reconcile_error_logged_limited_effects.2.2.2 mBoth (gwOf snapClosed) exOrder exState
     snapClosed _ rfl rfl rfl (by decide)⟩

/-- C5 counterexample: in a two-order batch where the second order's
canonical-snapshot fetch fails, the surviving first order IS registered and
notified, but the caller does NOT receive it: the `except` handler at lines
317-319 logs the error and falls off the end of the function, so the caller
receives Python `None` instead of the accumulated list. -/
theorem batch_partial_not_returned_cex :
    (submit_batch_order gwBatch ["req1", "req2"] emptyState).2 = none ∧
    (submit_batch_order gwBatch ["req1", "req2"] emptyState).1.open_orders = ["b1"] ∧
    (submit_batch_order gwBatch ["req1", "req2"] emptyState).1.notifs = ["b1"] ∧
    (submit_batch_order gwBatch ["req1", "req2"] emptyState).1.log =
      emptyState.log ++ [errLine (Err.gatewayError "boom")] := by
  decide

/-- C5 amended: a failure anywhere in the batch is caught and logged, and
orders already processed before the failure remain registered and notified
(partial success is not rolled back) — but they are NOT returned to the
caller: the function returns `None` instead of the partial list. -/
theorem batch_failure_keeps_registrations_returns_none
    (g : Gateway) (orders : List String) (st : BrokerState) (r1 r2 : RetOrder)
    (od1 od2 : OwnerData) (snap1 : Snapshot) (e : Err)
    (hb : g.create_batch_order orders = Except.ok ([r1, r2], [od1, od2]))
    (h1 : g.fetch_order r1.orderId (batchSymbol r1.symbol) = Except.ok snap1)
    (h2 : g.fetch_order r2.orderId (batchSymbol r2.symbol) = Except.error e)
    (hm : (r1.symbol == od1.symbol) = true)
    (hn : (r1.symbol == od2.symbol) = false) :
    submit_batch_order g orders st =
      ({ st with
           open_orders := st.open_orders ++ [snap1.id]
           notifs := st.notifs ++ [snap1.id]
           gateway_calls := st.gateway_calls ++ [GCall.createBatch,
             GCall.fetchOrder r1.orderId (batchSymbol r1.symbol),
             GCall.fetchOrder r2.orderId (batchSymbol r2.symbol)]
           log := st.log ++ [errLine e] }, none) := by
  have hm2 : r1.symbol = od1.symbol := by simpa using hm
  have hn2 : ¬(r1.symbol = od2.symbol) := by simpa using hn
  simp [submit_batch_order, hb, batchLoop, h1, h2, batchMatchOwners, ← hm2, hn2,
    mkCCXTOrder]

/-- Witness for C5's amended theorem on the concrete two-order batch. -/
theorem batch_failure_keeps_registrations_returns_none_witness :
    gwBatch.create_batch_order ["req1", "req2"] = Except.ok ([rB1, rB2], [odB1, odB2]) ∧
    gwBatch.fetch_order rB1.orderId (batchSymbol rB1.symbol) = Except.ok snapB1 ∧
    gwBatch.fetch_order rB2.orderId (batchSymbol rB2.symbol) =
      Except.error (Err.gatewayError "boom") ∧
    (rB1.symbol == odB1.symbol) = true ∧ (rB1.symbol == odB2.symbol) = false ∧
    submit_batch_order gwBatch ["req1", "req2"] emptyState =
      ({ emptyState with
           open_orders := emptyState.open_orders ++ [snapB1.id]
           notifs := emptyState.notifs ++ [snapB1.id]
           gateway_calls := emptyState.gateway_calls ++ [GCall.createBatch,
             GCall.fetchOrder rB1.orderId (batchSymbol rB1.symbol),
             GCall.fetchOrder rB2.orderId (batchSymbol rB2.symbol)]
           log := emptyState.log ++ [errLine (Err.gatewayError "boom")] }, none) :=
  ⟨rfl, rfl, rfl, rfl, rfl,
   batch_failure_keeps_registrations_returns_none gwBatch ["req1", "req2"] emptyState
     rB1 rB2 odB1 odB2 snapB1 (Err.gatewayError "boom") rfl rfl rfl rfl rfl⟩
